import Mathlib

/-!
# ESPHome slider adapter (pkg/deej/esphome.go)

A shallow embedding of the ESPHome type of package deej and of its methods.

Modelling conventions.

* The receiver struct is an explicit state value; every method takes the state and
  returns the new state together with its observable effects (the values sent on
  channels, the error returned, whether a goroutine was launched).
* A channel of move events is identified by a number; a send on it is recorded as a
  pair of that number and the event sent. Sends are listed in program order, every
  send being assumed to be accepted by its receiver.
* float32 arithmetic and the two helpers of package util (NormalizeScalar and
  SignificantlyDifferent), whose source is not part of esphome.go, are parameters of
  the development, collected in the structure Ops. All general theorems hold for every
  choice of these parameters.
* A run-time panic (slice index out of range) is the result none.
* Logging has no effect on the state and is left out.
-/

set_option autoImplicit false

namespace Deej

/-! ## Data model -/

/-- Identity of a channel made by make(chan SliderMoveEvent). -/
abbrev Chan := Nat

/-- The event type SliderMoveEvent, as built in handleLine. -/
structure SliderMoveEvent (F : Type) where
  SliderID : Nat
  PercentValue : F
deriving DecidableEq

/-- The fields of deej.config read by esphome.go. The type of the noise reduction
level is not fixed by esphome.go and is a parameter. -/
structure Config (L : Type) where
  ESPHomeIpAddr : String
  ESPHomeSliderNames : List String
  InvertSliders : Bool
  NoiseReductionLevel : L

/-- The float32 operations used by handleLine and the two functions of package util it
calls. ofInt is the conversion float32(number); the literals 1023.0, 1, -1.0 and the
zero value of float32 are ofInt 1023, ofInt 1, ofInt (-1) and ofInt 0. -/
structure Ops (F L : Type) where
  ofInt : Int → F
  div : F → F → F
  sub : F → F → F
  NormalizeScalar : F → F
  SignificantlyDifferent : F → F → L → Bool

/-- The mutable fields of the struct ESPHome (the logger, the deej handle and the stop
channel carry no data that any method reads back). -/
structure ESPHome (F : Type) where
  connected : Bool
  lastKnownNumSliders : Int
  currentSliderPercentValues : List F
  lastGoodResults : List Int
  sliderMoveConsumers : List Chan
deriving DecidableEq

variable {F L : Type}

/-! ## Construction, lifecycle and subscription -/

/-- NewESPHome: connected is false, the consumer list is empty, every other field has
its zero value. -/
def NewESPHome : ESPHome F :=
  { connected := false
    lastKnownNumSliders := 0
    currentSliderPercentValues := []
    lastGoodResults := []
    sliderMoveConsumers := [] }

/-- What a call of Start returns and whether it executed its go statement. -/
structure StartResult where
  err : Option String
  launched : Bool
deriving DecidableEq

/-- Start: returns an error when connected is set; otherwise launches the background
goroutine and returns nil. The body assigns no field of the receiver. -/
def Start (s : ESPHome F) : ESPHome F × StartResult :=
  if s.connected then
    (s, { err := some "ESPHome: connection already active", launched := false })
  else
    (s, { err := none, launched := true })

/-- The method close: clears connected. -/
def close (s : ESPHome F) : ESPHome F :=
  { s with connected := false }

/-- SubscribeToSliderMoveEvents: ch is the channel returned by make; it is appended to
the consumer list and returned. -/
def SubscribeToSliderMoveEvents (s : ESPHome F) (ch : Chan) : ESPHome F × Chan :=
  ({ s with sliderMoveConsumers := s.sliderMoveConsumers ++ [ch] }, ch)

/-- The assignment made by the goroutine of setupOnConfigReload, 50 ms after each
configuration reload: lastKnownNumSliders becomes 0. -/
def onConfigReload (s : ESPHome F) : ESPHome F :=
  { s with lastKnownNumSliders := 0 }

/-! ## Fetching one line -/

/-- The three ways one sensor request can fail in getLine. -/
inductive FetchError where
  | get
  | read
  | parse
deriving DecidableEq

/-- Outcome of the request for one sensor: an error at http.Get, at io.ReadAll or at
json.Unmarshal, or the decoded field Value. -/
inductive HttpOutcome where
  | failed (e : FetchError)
  | value (v : Int)
deriving DecidableEq

/-- The range loop of getLine over the slider names, from position index on. The first
failing request ends the loop with its error. -/
def getLineLoop (cfg : Config L) (http : String → HttpOutcome) :
    Nat → List String → List Int → Except FetchError (List Int)
  | _, [], results => .ok results
  | index, sensorEntityID :: rest, results =>
    let url := "http://" ++ cfg.ESPHomeIpAddr ++ "/sensor/" ++ sensorEntityID
    match http url with
    | .failed e => .error e
    | .value v => getLineLoop cfg http (index + 1) rest (results.set index v)

/-- The method getLine. http answers the requests of this call. The result is the new
state, the returned slice (nil, that is the empty list, on error) and the returned
error. -/
def getLine (cfg : Config L) (s : ESPHome F) (http : String → HttpOutcome) :
    ESPHome F × List Int × Option FetchError :=
  let results := List.replicate cfg.ESPHomeSliderNames.length (0 : Int)
  match getLineLoop cfg http 0 cfg.ESPHomeSliderNames results with
  | .error e => (s, [], some e)
  | .ok results => ({ s with lastGoodResults := results }, results, none)

/-- One iteration of the loop in the goroutine of readLine: the new state and the
values sent on the line channel, in order. -/
def readLineIteration (cfg : Config L) (s : ESPHome F) (http : String → HttpOutcome) :
    ESPHome F × List (List Int) :=
  match getLine cfg s http with
  | (s1, results, err) =>
    let sentOnError := if err.isSome then [s1.lastGoodResults] else []
    (s1, sentOnError ++ [results])

/-- The goroutine of readLine run for as many iterations as there are entries in
cycles, each entry answering the requests of one iteration; the result lists, per
iteration, the values sent on the line channel. -/
def readLine (cfg : Config L) : ESPHome F → List (String → HttpOutcome) →
    ESPHome F × List (List (List Int))
  | s, [] => (s, [])
  | s, http :: cycles =>
    match readLineIteration cfg s http with
    | (s1, sent) =>
      match readLine cfg s1 cycles with
      | (s2, later) => (s2, sent :: later)

/-! ## Handling one line -/

/-- The value stored for a raw reading: NormalizeScalar(float32(number) / 1023.0),
replaced by 1 minus it when InvertSliders is set. -/
def scalar (E : Ops F L) (cfg : Config L) (number : Int) : F :=
  let dirtyFloat := E.div (E.ofInt number) (E.ofInt 1023)
  let normalizedScalar := E.NormalizeScalar dirtyFloat
  if cfg.InvertSliders then E.sub (E.ofInt 1) normalizedScalar else normalizedScalar

/-- The slice made in handleLine when the slider count changes: make([]float32, n)
followed by the loop that stores -1.0 at every index. -/
def resetValues (E : Ops F L) (n : Nat) : List F :=
  (List.range n).foldl (fun values idx => values.set idx (E.ofInt (-1)))
    (List.replicate n (E.ofInt 0))

/-- The first block of handleLine: when the length of results differs from
lastKnownNumSliders, the count is updated and the tracked values are reset. -/
def updateSliderCount (E : Ops F L) (s : ESPHome F) (results : List Int) : ESPHome F :=
  let numSliders : Int := results.length
  if numSliders != s.lastKnownNumSliders then
    { s with
      lastKnownNumSliders := numSliders
      currentSliderPercentValues := resetValues E results.length }
  else s

/-- Local state of the range loop of handleLine. -/
structure LoopState (F : Type) where
  values : List F
  moveEvents : List (SliderMoveEvent F)

/-- The range loop of handleLine from index sliderIdx on. The result is none when the
index expression panics; otherwise it is the loop state reached and a flag telling
whether the loop was left through the return statement of the malformed-line check. -/
def sliderLoop (E : Ops F L) (cfg : Config L) :
    Nat → List Int → LoopState F → Option (LoopState F × Bool)
  | _, [], st => some (st, false)
  | sliderIdx, number :: rest, st =>
    if sliderIdx = 0 ∧ number > 1023 then some (st, true)
    else
      let normalizedScalar := scalar E cfg number
      match st.values[sliderIdx]? with
      | none => none
      | some old =>
        if E.SignificantlyDifferent old normalizedScalar cfg.NoiseReductionLevel then
          sliderLoop E cfg (sliderIdx + 1) rest
            { values := st.values.set sliderIdx normalizedScalar
              moveEvents := st.moveEvents ++ [⟨sliderIdx, normalizedScalar⟩] }
        else
          sliderLoop E cfg (sliderIdx + 1) rest st

/-- The sends of the delivery loops of handleLine: for each consumer, in list order,
every move event in order. -/
def deliver (consumers : List Chan) (moveEvents : List (SliderMoveEvent F)) :
    List (Chan × SliderMoveEvent F) :=
  consumers.foldl
    (fun sent consumer => moveEvents.foldl (fun sent ev => sent ++ [(consumer, ev)]) sent) []

/-- Effects of one call of handleLine: the state afterwards, the value of the local
moveEvents when the call ended, and the sends made on consumer channels. -/
structure HandleResult (F : Type) where
  state : ESPHome F
  moveEvents : List (SliderMoveEvent F)
  sends : List (Chan × SliderMoveEvent F)
deriving DecidableEq

/-- The method handleLine. -/
def handleLine (E : Ops F L) (cfg : Config L) (s : ESPHome F) (results : List Int) :
    Option (HandleResult F) :=
  let s1 := updateSliderCount E s results
  match sliderLoop E cfg 0 results { values := s1.currentSliderPercentValues, moveEvents := [] } with
  | none => none
  | some (st, true) =>
    some { state := { s1 with currentSliderPercentValues := st.values }
           moveEvents := st.moveEvents
           sends := [] }
  | some (st, false) =>
    some { state := { s1 with currentSliderPercentValues := st.values }
           moveEvents := st.moveEvents
           sends := if st.moveEvents.length > 0 then deliver s1.sliderMoveConsumers st.moveEvents
                    else [] }

/-! ## The background task of Start -/

/-- What one select of the background goroutine received. -/
inductive Selected where
  | stop
  | line (results : List Int)
deriving DecidableEq

/-- One iteration of the for loop of the background goroutine. -/
def taskIteration (E : Ops F L) (cfg : Config L) (s : ESPHome F) :
    Selected → Option (ESPHome F × List (Chan × SliderMoveEvent F))
  | .stop => some (close s, [])
  | .line results => (handleLine E cfg s results).map fun r => (r.state, r.sends)

/-- The background goroutine of Start run on the sequence of values its select
statements receive. The loop has no exit: every received value is processed. -/
def backgroundTask (E : Ops F L) (cfg : Config L) :
    ESPHome F → List Selected → Option (ESPHome F × List (Chan × SliderMoveEvent F))
  | s, [] => some (s, [])
  | s, m :: ms =>
    match taskIteration E cfg s m with
    | none => none
    | some (s1, sent) =>
      match backgroundTask E cfg s1 ms with
      | none => none
      | some (s2, later) => some (s2, sent ++ later)

/-! ## A sample instance over the rationals -/

/-- Modelled from the spec: util.NormalizeScalar, which is not part of esphome.go. The
spec describes it as normalizing to a 2-decimal-precision scalar in [0, 1] by clamping
and rounding. -/
def sampleNormalizeScalar (v : ℚ) : ℚ :=
  max 0 (min 1 ((⌊v * 100 + 1 / 2⌋ : ℚ) / 100))

/-- Modelled from the spec: util.SignificantlyDifferent, which is not part of
esphome.go. The spec describes it as reporting a change only if the absolute
difference exceeds the configured noise-reduction level. -/
def sampleSignificantlyDifferent (old new level : ℚ) : Bool :=
  decide (level < |new - old|)

/-- Exact rational arithmetic with the two sample helpers. -/
def sampleOps : Ops ℚ ℚ :=
  { ofInt := fun n => (n : ℚ)
    div := fun a b => a / b
    sub := fun a b => a - b
    NormalizeScalar := sampleNormalizeScalar
    SignificantlyDifferent := sampleSignificantlyDifferent }

/-- A configuration with two sliders, no inversion and threshold 1/40. -/
def sampleConfig : Config ℚ :=
  { ESPHomeIpAddr := "192.168.1.50"
    ESPHomeSliderNames := ["slider0", "slider1"]
    InvertSliders := false
    NoiseReductionLevel := 1 / 40 }

/-- The state reached from the one made by NewESPHome by handling the line [512, 7]
and then a reload reset: two tracked values, count 0. -/
def afterReloadState : ESPHome ℚ :=
  { connected := false
    lastKnownNumSliders := 0
    currentSliderPercentValues := [1 / 2, 1 / 100]
    lastGoodResults := []
    sliderMoveConsumers := [] }

/-! ## Reachable states and spec-side descriptions -/

/-- The device states that can arise from NewESPHome when the methods run one at a
time: lines are handled (with any configuration in force at that moment), reload resets
fire, consumers subscribe with a fresh channel, the connection is closed, lines are
fetched. -/
inductive Reachable (E : Ops F L) : ESPHome F → Prop where
  | init : Reachable E NewESPHome
  | handle {s : ESPHome F} (cfg : Config L) (results : List Int) (r : HandleResult F) :
      Reachable E s → handleLine E cfg s results = some r → Reachable E r.state
  | reload {s : ESPHome F} : Reachable E s → Reachable E (onConfigReload s)
  | subscribe {s : ESPHome F} (ch : Chan) :
      Reachable E s → ch ∉ s.sliderMoveConsumers →
      Reachable E (SubscribeToSliderMoveEvents s ch).1
  | closed {s : ESPHome F} : Reachable E s → Reachable E (close s)
  | fetch {s : ESPHome F} (cfg : Config L) (http : String → HttpOutcome) :
      Reachable E s → Reachable E (getLine cfg s http).1

/-- The tracked values the comparison of handleLine reads, in the words of the spec:
the current values when the vector has the known length, otherwise a vector of that
length filled with the sentinel -1.0. -/
def tracked (E : Ops F L) (s : ESPHome F) (v : List Int) : List F :=
  if (v.length : Int) = s.lastKnownNumSliders then s.currentSliderPercentValues
  else List.replicate v.length (E.ofInt (-1))

/-- The values left by the comparison loop, given the values old it started from: at
each index of the vector the new scalar if the comparison reports a change, the old
value otherwise; positions beyond the vector keep their value. -/
def updated (E : Ops F L) (cfg : Config L) : List Int → List F → List F
  | number :: rest, old :: olds =>
    (if E.SignificantlyDifferent old (scalar E cfg number) cfg.NoiseReductionLevel then
      scalar E cfg number else old) :: updated E cfg rest olds
  | _, olds => olds

/-- The events of the comparison loop from index i on, given the values it reads. -/
def changes (E : Ops F L) (cfg : Config L) : Nat → List Int → List F → List (SliderMoveEvent F)
  | i, number :: rest, old :: olds =>
    (if E.SignificantlyDifferent old (scalar E cfg number) cfg.NoiseReductionLevel then
      [⟨i, scalar E cfg number⟩] else []) ++ changes E cfg (i + 1) rest olds
  | _, _, _ => []

/-- The invariant kept by every method: the known count is 0 or the length of the
tracked values, no consumer channel is registered twice, and connected is unset. -/
def Inv (s : ESPHome F) : Prop :=
  (s.lastKnownNumSliders = 0 ∨ s.lastKnownNumSliders = s.currentSliderPercentValues.length) ∧
  s.sliderMoveConsumers.Nodup ∧ s.connected = false

/-- A state with two tracked sliders at 0.50 and 0.01 and two subscribers. -/
def sampleState : ESPHome ℚ :=
  { connected := false
    lastKnownNumSliders := 2
    currentSliderPercentValues := [1 / 2, 1 / 100]
    lastGoodResults := [512, 7]
    sliderMoveConsumers := [0, 1] }

/-! ## The reset of the tracked values -/

theorem foldl_set_range (a : F) (k : Nat) (l : List F) (hk : k ≤ l.length) :
    (List.range k).foldl (fun values idx => values.set idx a) l
      = List.replicate k a ++ l.drop k := by
  induction k with
  | zero => simp
  | succ k ih =>
    have hlt : k < l.length := hk
    rw [List.range_succ, List.foldl_append, ih (Nat.le_of_lt hlt)]
    simp only [List.foldl_cons, List.foldl_nil]
    rw [List.set_append_right _ _ (by simp), List.drop_eq_getElem_cons hlt, List.replicate_succ']
    simp only [List.length_replicate, Nat.sub_self, List.set_cons_zero, List.append_assoc,
      List.singleton_append]

theorem resetValues_eq (E : Ops F L) (n : Nat) :
    resetValues E n = List.replicate n (E.ofInt (-1)) := by
  unfold resetValues
  rw [foldl_set_range _ _ _ (by simp)]
  simp

theorem updateSliderCount_of_ne (E : Ops F L) (s : ESPHome F) (v : List Int)
    (h : (v.length : Int) ≠ s.lastKnownNumSliders) :
    updateSliderCount E s v =
      { s with lastKnownNumSliders := v.length
               currentSliderPercentValues := List.replicate v.length (E.ofInt (-1)) } := by
  simp [updateSliderCount, h, resetValues_eq]

theorem updateSliderCount_of_eq (E : Ops F L) (s : ESPHome F) (v : List Int)
    (h : (v.length : Int) = s.lastKnownNumSliders) :
    updateSliderCount E s v = s := by
  simp [updateSliderCount, h]

theorem updateSliderCount_values (E : Ops F L) (s : ESPHome F) (v : List Int) :
    (updateSliderCount E s v).currentSliderPercentValues = tracked E s v := by
  by_cases h : (v.length : Int) = s.lastKnownNumSliders
  · simp [updateSliderCount_of_eq E s v h, tracked, h]
  · simp [updateSliderCount_of_ne E s v h, tracked, h]

theorem updateSliderCount_count (E : Ops F L) (s : ESPHome F) (v : List Int) :
    (updateSliderCount E s v).lastKnownNumSliders = v.length := by
  by_cases h : (v.length : Int) = s.lastKnownNumSliders
  · simp [updateSliderCount_of_eq E s v h, h]
  · simp [updateSliderCount_of_ne E s v h]

theorem updateSliderCount_consumers (E : Ops F L) (s : ESPHome F) (v : List Int) :
    (updateSliderCount E s v).sliderMoveConsumers = s.sliderMoveConsumers := by
  by_cases h : (v.length : Int) = s.lastKnownNumSliders
  · simp [updateSliderCount_of_eq E s v h]
  · simp [updateSliderCount_of_ne E s v h]

theorem updateSliderCount_connected (E : Ops F L) (s : ESPHome F) (v : List Int) :
    (updateSliderCount E s v).connected = s.connected := by
  by_cases h : (v.length : Int) = s.lastKnownNumSliders
  · simp [updateSliderCount_of_eq E s v h]
  · simp [updateSliderCount_of_ne E s v h]

/-- In a state satisfying the invariant every index of the vector is an index of the
tracked values the loop reads. -/
theorem length_le_tracked (E : Ops F L) (s : ESPHome F) (v : List Int)
    (h : s.lastKnownNumSliders = 0 ∨
      s.lastKnownNumSliders = s.currentSliderPercentValues.length) :
    v.length ≤ (tracked E s v).length := by
  unfold tracked
  split
  · rename_i heq
    rcases h with h | h
    · rw [h] at heq
      have : v.length = 0 := by exact_mod_cast heq
      omega
    · rw [h] at heq
      have : v.length = s.currentSliderPercentValues.length := by exact_mod_cast heq
      omega
  · simp

/-! ## The comparison loop -/

theorem updated_length (E : Ops F L) (cfg : Config L) :
    ∀ (v : List Int) (olds : List F), (updated E cfg v olds).length = olds.length
  | [], olds => by simp [updated]
  | _ :: _, [] => by simp [updated]
  | _ :: rest, _ :: olds => by simp [updated, updated_length E cfg rest olds]

theorem sliderLoop_malformed (E : Ops F L) (cfg : Config L) (x : Int) (rest : List Int)
    (st : LoopState F) (hx : 1024 ≤ x) :
    sliderLoop E cfg 0 (x :: rest) st = some (st, true) := by
  have : x > 1023 := by omega
  simp [sliderLoop, this]

/-- The loop from index pre.length on, when the values it is to read are there and the
malformed-line check does not fire. -/
theorem sliderLoop_spec (E : Ops F L) (cfg : Config L) :
    ∀ (rest : List Int) (pre olds : List F) (evs : List (SliderMoveEvent F)),
      rest.length ≤ olds.length →
      (pre.length = 0 → ∀ x, rest.head? = some x → x ≤ 1023) →
      sliderLoop E cfg pre.length rest { values := pre ++ olds, moveEvents := evs }
        = some ({ values := pre ++ updated E cfg rest olds
                  moveEvents := evs ++ changes E cfg pre.length rest olds }, false) := by
  intro rest
  induction rest with
  | nil => intro pre olds evs _ _; simp [sliderLoop, updated, changes]
  | cons x rest ih =>
    intro pre olds evs hlen hfirst
    cases olds with
    | nil => simp at hlen
    | cons old olds =>
      have hguard : ¬ (pre.length = 0 ∧ x > 1023) := by
        rintro ⟨h0, hx⟩
        have := hfirst h0 x (by simp)
        omega
      have hget : (pre ++ old :: olds)[pre.length]? = some old := by
        rw [List.getElem?_append_right (Nat.le_refl _)]
        simp
      have hnext := ih (pre ++ [old]) olds
      simp only [List.length_append, List.length_singleton, List.append_assoc,
        List.singleton_append] at hnext
      have hlen2 : rest.length ≤ olds.length := by simpa using hlen
      unfold sliderLoop
      rw [if_neg hguard]
      simp only [hget]
      by_cases hsig : E.SignificantlyDifferent old (scalar E cfg x) cfg.NoiseReductionLevel = true
      · simp only [hsig, if_true]
        have hset : (pre ++ old :: olds).set pre.length (scalar E cfg x)
            = (pre ++ [scalar E cfg x]) ++ olds := by
          rw [List.set_append_right _ _ (Nat.le_refl _)]
          simp
        rw [hset]
        have hnext2 := ih (pre ++ [scalar E cfg x]) olds (evs ++ [⟨pre.length, scalar E cfg x⟩])
          hlen2 (by simp)
        simp only [List.length_append, List.length_singleton] at hnext2
        rw [hnext2]
        simp [updated, changes, hsig]
      · simp only [hsig]
        have hnext2 := hnext evs hlen2 (by simp)
        simp only [Bool.false_eq_true, if_false]
        rw [hnext2]
        simp [updated, changes, hsig]

/-! ## Delivery -/

theorem foldl_send (consumer : Chan) (moveEvents : List (SliderMoveEvent F)) :
    ∀ sent : List (Chan × SliderMoveEvent F),
      moveEvents.foldl (fun sent ev => sent ++ [(consumer, ev)]) sent
        = sent ++ moveEvents.map (fun ev => (consumer, ev)) := by
  induction moveEvents with
  | nil => intro sent; simp
  | cons ev evs ih => intro sent; simp [ih]

theorem foldl_deliver (moveEvents : List (SliderMoveEvent F)) (consumers : List Chan) :
    ∀ sent : List (Chan × SliderMoveEvent F),
      consumers.foldl
          (fun sent consumer => moveEvents.foldl (fun sent ev => sent ++ [(consumer, ev)]) sent)
          sent
        = sent ++ consumers.flatMap (fun consumer => moveEvents.map (fun ev => (consumer, ev))) := by
  induction consumers with
  | nil => intro sent; simp
  | cons c cs ih =>
    intro sent
    simp only [List.foldl_cons, List.flatMap_cons]
    rw [ih, foldl_send, List.append_assoc]

theorem deliver_eq (consumers : List Chan) (moveEvents : List (SliderMoveEvent F)) :
    deliver consumers moveEvents
      = consumers.flatMap (fun consumer => moveEvents.map (fun ev => (consumer, ev))) := by
  unfold deliver
  rw [foldl_deliver]
  simp

theorem flatMap_map_nil (consumers : List Chan) :
    consumers.flatMap (fun consumer => ([] : List (SliderMoveEvent F)).map (fun ev => (consumer, ev)))
      = [] := by
  induction consumers with
  | nil => rfl
  | cons c cs _ => simp

/-- The guarded delivery of handleLine is the plain nested enumeration. -/
theorem guarded_deliver_eq (consumers : List Chan) (moveEvents : List (SliderMoveEvent F)) :
    (if moveEvents.length > 0 then deliver consumers moveEvents else [])
      = consumers.flatMap (fun consumer => moveEvents.map (fun ev => (consumer, ev))) := by
  cases moveEvents with
  | nil => simp
  | cons ev evs => simp [deliver_eq]

theorem sends_not_to_stranger (consumers : List Chan) (moveEvents : List (SliderMoveEvent F))
    (ch : Chan) (hch : ch ∉ consumers) :
    ∀ d ∈ consumers.flatMap (fun consumer => moveEvents.map (fun ev => (consumer, ev))),
      d.1 ≠ ch := by
  intro d hd
  simp only [List.mem_flatMap, List.mem_map] at hd
  obtain ⟨c, hc, ev, _, rfl⟩ := hd
  intro h
  exact hch (h ▸ hc)

theorem sends_to_member (moveEvents : List (SliderMoveEvent F)) (ch : Chan) :
    ∀ consumers : List Chan, consumers.Nodup → ch ∈ consumers →
      ((consumers.flatMap (fun consumer => moveEvents.map (fun ev => (consumer, ev)))).filter
          (fun d => decide (d.1 = ch))).map (fun d => d.2) = moveEvents := by
  have hself : ((moveEvents.map (fun ev => (ch, ev))).filter
      (fun d => decide (d.1 = ch))).map (fun d => d.2) = moveEvents := by
    induction moveEvents with
    | nil => rfl
    | cons ev evs ih => simpa using ih
  have hother : ∀ c : Chan, c ≠ ch → (moveEvents.map (fun ev => (c, ev))).filter
      (fun d => decide (d.1 = ch)) = [] := by
    intro c hc
    induction moveEvents with
    | nil => rfl
    | cons ev evs _ => simp [hc]
  have hnone : ∀ cs : List Chan, ch ∉ cs →
      (cs.flatMap (fun consumer => moveEvents.map (fun ev => (consumer, ev)))).filter
        (fun d => decide (d.1 = ch)) = [] := by
    intro cs
    induction cs with
    | nil => intro _; rfl
    | cons c cs ih =>
      intro hmem
      have hc : c ≠ ch := fun h => hmem (by simp [h])
      have hcs : ch ∉ cs := fun h => hmem (by simp [h])
      rw [List.flatMap_cons, List.filter_append, hother c hc, ih hcs]
      rfl
  intro consumers
  induction consumers with
  | nil => intro _ hmem; simp at hmem
  | cons c cs ih =>
    intro hnd hmem
    have hnd2 := List.nodup_cons.mp hnd
    rw [List.flatMap_cons, List.filter_append, List.map_append]
    by_cases hc : c = ch
    · subst hc
      rw [hnone cs hnd2.1, hself]
      simp
    · have hmem2 : ch ∈ cs := by
        rcases List.mem_cons.mp hmem with h | h
        · exact absurd h.symm hc
        · exact h
      rw [hother c hc, ih hnd2.2 hmem2]
      simp

/-! ## handleLine as a whole -/

theorem handleLine_malformed (E : Ops F L) (cfg : Config L) (s : ESPHome F) (x : Int)
    (rest : List Int) (hx : 1024 ≤ x) :
    handleLine E cfg s (x :: rest)
      = some { state := updateSliderCount E s (x :: rest), moveEvents := [], sends := [] } := by
  unfold handleLine
  simp only [sliderLoop_malformed E cfg x rest _ hx]

theorem handleLine_regular (E : Ops F L) (cfg : Config L) (s : ESPHome F) (v : List Int)
    (hfirst : ∀ x, v.head? = some x → x ≤ 1023)
    (hrange : v.length ≤ (tracked E s v).length) :
    handleLine E cfg s v
      = some { state := { updateSliderCount E s v with
                          currentSliderPercentValues := updated E cfg v (tracked E s v) }
               moveEvents := changes E cfg 0 v (tracked E s v)
               sends := s.sliderMoveConsumers.flatMap (fun consumer =>
                 (changes E cfg 0 v (tracked E s v)).map (fun ev => (consumer, ev))) } := by
  have h := sliderLoop_spec E cfg v [] (tracked E s v) [] hrange (fun _ => hfirst)
  simp only [List.length_nil, List.nil_append] at h
  unfold handleLine
  simp only [updateSliderCount_values, h, guarded_deliver_eq, updateSliderCount_consumers]

/-- Every vector is either regular (empty, or first element at most 1023) or malformed. -/
theorem regular_or_malformed (v : List Int) :
    (∀ x, v.head? = some x → x ≤ 1023) ∨ ∃ x rest, v = x :: rest ∧ 1024 ≤ x := by
  cases v with
  | nil => left; intro x h; simp at h
  | cons x rest =>
    by_cases hx : x ≤ 1023
    · left; intro y h; simp at h; omega
    · right; exact ⟨x, rest, rfl, by omega⟩

/-- In a state whose known count is 0 or the length of the tracked values, handleLine
returns for every vector, and the state it leaves is described field by field. -/
theorem handleLine_total (E : Ops F L) (cfg : Config L) (s : ESPHome F) (v : List Int)
    (h : s.lastKnownNumSliders = 0 ∨
      s.lastKnownNumSliders = s.currentSliderPercentValues.length) :
    ∃ r, handleLine E cfg s v = some r ∧
      r.state.lastKnownNumSliders = v.length ∧
      r.state.currentSliderPercentValues.length = (tracked E s v).length ∧
      r.state.sliderMoveConsumers = s.sliderMoveConsumers ∧
      r.state.connected = s.connected ∧
      r.sends = s.sliderMoveConsumers.flatMap (fun consumer =>
        r.moveEvents.map (fun ev => (consumer, ev))) := by
  rcases regular_or_malformed v with hreg | ⟨x, rest, rfl, hx⟩
  · refine ⟨_, handleLine_regular E cfg s v hreg (length_le_tracked E s v h), ?_, ?_, ?_, ?_, rfl⟩
    · exact updateSliderCount_count E s v
    · exact updated_length E cfg v _
    · exact updateSliderCount_consumers E s v
    · exact updateSliderCount_connected E s v
  · refine ⟨_, handleLine_malformed E cfg s x rest hx, ?_, ?_, ?_, ?_, ?_⟩
    · exact updateSliderCount_count E s _
    · exact congrArg List.length (updateSliderCount_values E s _)
    · exact updateSliderCount_consumers E s _
    · exact updateSliderCount_connected E s _
    · exact (flatMap_map_nil _).symm

theorem tracked_length_inv (E : Ops F L) (s : ESPHome F) (v : List Int)
    (h : s.lastKnownNumSliders = 0 ∨
      s.lastKnownNumSliders = s.currentSliderPercentValues.length) :
    (v.length : Int) = 0 ∨ (v.length : Int) = ((tracked E s v).length : Int) := by
  unfold tracked
  split
  · rename_i heq
    rcases h with h | h
    · left; rw [heq, h]
    · right; rw [heq, h]
  · right; simp

theorem handleLine_inv (E : Ops F L) (cfg : Config L) (s : ESPHome F) (v : List Int)
    (r : HandleResult F) (hs : Inv s) (hr : handleLine E cfg s v = some r) : Inv r.state := by
  obtain ⟨r2, hr2, hcount, hlen, hcons, hconn, _⟩ := handleLine_total E cfg s v hs.1
  have : r2 = r := Option.some.inj (hr2.symm.trans hr)
  subst this
  refine ⟨?_, ?_, ?_⟩
  · rw [hcount, hlen]; exact tracked_length_inv E s v hs.1
  · rw [hcons]; exact hs.2.1
  · rw [hconn]; exact hs.2.2

theorem getLine_fields (cfg : Config L) (s : ESPHome F) (http : String → HttpOutcome) :
    (getLine cfg s http).1.lastKnownNumSliders = s.lastKnownNumSliders ∧
    (getLine cfg s http).1.currentSliderPercentValues = s.currentSliderPercentValues ∧
    (getLine cfg s http).1.sliderMoveConsumers = s.sliderMoveConsumers ∧
    (getLine cfg s http).1.connected = s.connected := by
  unfold getLine
  dsimp only
  generalize getLineLoop cfg http 0 cfg.ESPHomeSliderNames _ = out
  cases out <;> simp

theorem reachable_inv (E : Ops F L) (s : ESPHome F) (hs : Reachable E s) : Inv s := by
  induction hs with
  | init => simp [Inv, NewESPHome]
  | handle cfg results r _ hr ih => exact handleLine_inv E cfg _ results r ih hr
  | reload _ ih => exact ⟨Or.inl rfl, ih.2.1, ih.2.2⟩
  | subscribe ch _ hch ih =>
    refine ⟨ih.1, ?_, ih.2.2⟩
    simp only [SubscribeToSliderMoveEvents]
    rw [List.nodup_append]
    refine ⟨ih.2.1, by simp, ?_⟩
    intro a ha hb
    simp at hb
    exact hch (hb ▸ ha)
  | closed _ ih => exact ⟨ih.1, ih.2.1, rfl⟩
  | fetch cfg http _ ih =>
    obtain ⟨h1, h2, h3, h4⟩ := getLine_fields cfg _ http
    exact ⟨by rw [h1, h2]; exact ih.1, by rw [h3]; exact ih.2.1, by rw [h4]; exact ih.2.2⟩

/-! ## The spec-side descriptions in closed form -/

theorem changes_eq_filterMap (E : Ops F L) (cfg : Config L) :
    ∀ (v : List Int) (olds : List F) (i : Nat),
      changes E cfg i v olds
        = ((v.zip olds).enumFrom i).filterMap (fun p =>
            if E.SignificantlyDifferent p.2.2 (scalar E cfg p.2.1) cfg.NoiseReductionLevel then
              some ⟨p.1, scalar E cfg p.2.1⟩ else none)
  | [], olds, i => by simp [changes]
  | _ :: _, [], i => by simp [changes]
  | x :: rest, old :: olds, i => by
    have ih := changes_eq_filterMap E cfg rest olds (i + 1)
    by_cases hsig : E.SignificantlyDifferent old (scalar E cfg x) cfg.NoiseReductionLevel = true
    · simp [changes, List.enumFrom_cons, List.filterMap_cons, hsig, ih]
    · simp [changes, List.enumFrom_cons, List.filterMap_cons, hsig, ih]

theorem updated_getElem?_lt (E : Ops F L) (cfg : Config L) :
    ∀ (v : List Int) (olds : List F) (i : Nat) (x : Int) (old : F),
      v[i]? = some x → olds[i]? = some old →
      (updated E cfg v olds)[i]?
        = some (if E.SignificantlyDifferent old (scalar E cfg x) cfg.NoiseReductionLevel then
            scalar E cfg x else old)
  | [], _, i, x, old => by intro h; simp at h
  | _ :: _, [], i, x, old => by intro _ h; simp at h
  | y :: rest, o :: olds, 0, x, old => by
    intro hx ho
    simp at hx ho
    subst hx; subst ho
    simp [updated]
  | y :: rest, o :: olds, i + 1, x, old => by
    intro hx ho
    simp at hx ho
    simpa [updated] using updated_getElem?_lt E cfg rest olds i x old hx ho

theorem updated_getElem?_ge (E : Ops F L) (cfg : Config L) :
    ∀ (v : List Int) (olds : List F) (i : Nat), v.length ≤ i →
      (updated E cfg v olds)[i]? = olds[i]?
  | [], olds, i => by intro _; simp [updated]
  | _ :: _, [], i => by intro _; simp [updated]
  | y :: rest, o :: olds, 0 => by intro h; simp at h
  | y :: rest, o :: olds, i + 1 => by
    intro h
    have h2 : rest.length ≤ i := by simpa using h
    simpa [updated] using updated_getElem?_ge E cfg rest olds i h2

/-- When the comparison flags every scalar against a, a vector of a is replaced by
the scalars and every index yields an event. -/
theorem updated_replicate (E : Ops F L) (cfg : Config L) (a : F)
    (ha : ∀ x, E.SignificantlyDifferent a (scalar E cfg x) cfg.NoiseReductionLevel = true) :
    ∀ v : List Int, updated E cfg v (List.replicate v.length a) = v.map (scalar E cfg)
  | [] => by simp [updated]
  | x :: rest => by
    simp [List.replicate_succ, updated, ha x, updated_replicate E cfg a ha rest]

theorem changes_replicate (E : Ops F L) (cfg : Config L) (a : F)
    (ha : ∀ x, E.SignificantlyDifferent a (scalar E cfg x) cfg.NoiseReductionLevel = true) :
    ∀ (v : List Int) (i : Nat), changes E cfg i v (List.replicate v.length a)
      = (v.enumFrom i).map (fun p => ⟨p.1, scalar E cfg p.2⟩)
  | [], i => by simp [changes]
  | x :: rest, i => by
    simp [List.replicate_succ, changes, ha x, List.enumFrom_cons,
      changes_replicate E cfg a ha rest (i + 1)]

/-- When the comparison never flags a value against itself, running the loop again on
the values it left changes nothing and yields no event. -/
theorem updated_idem (E : Ops F L) (cfg : Config L)
    (hself : ∀ a, E.SignificantlyDifferent a a cfg.NoiseReductionLevel = false) :
    ∀ (v : List Int) (olds : List F),
      updated E cfg v (updated E cfg v olds) = updated E cfg v olds
  | [], olds => by simp [updated]
  | _ :: _, [] => by simp [updated]
  | x :: rest, old :: olds => by
    have ih := updated_idem E cfg hself rest olds
    by_cases hsig : E.SignificantlyDifferent old (scalar E cfg x) cfg.NoiseReductionLevel = true
    · simp [updated, hsig, hself, ih]
    · simp [updated, hsig, ih]

theorem changes_idem (E : Ops F L) (cfg : Config L)
    (hself : ∀ a, E.SignificantlyDifferent a a cfg.NoiseReductionLevel = false) :
    ∀ (v : List Int) (olds : List F) (i : Nat),
      changes E cfg i v (updated E cfg v olds) = []
  | [], olds, i => by simp [changes]
  | _ :: _, [], i => by simp [changes, updated]
  | x :: rest, old :: olds, i => by
    have ih := changes_idem E cfg hself rest olds (i + 1)
    by_cases hsig : E.SignificantlyDifferent old (scalar E cfg x) cfg.NoiseReductionLevel = true
    · simp [updated, changes, hsig, hself, ih]
    · simp [updated, changes, hsig, ih]

/-! ## The sample instance -/

theorem sampleNormalizeScalar_nonneg (v : ℚ) : 0 ≤ sampleNormalizeScalar v :=
  le_max_left _ _

theorem sampleNormalizeScalar_le_one (v : ℚ) : sampleNormalizeScalar v ≤ 1 :=
  max_le zero_le_one (min_le_left _ _)

/-- In the sample instance the sentinel differs from every computed scalar. -/
theorem sample_sentinel_differs (x : Int) :
    sampleOps.SignificantlyDifferent (sampleOps.ofInt (-1)) (scalar sampleOps sampleConfig x)
      sampleConfig.NoiseReductionLevel = true := by
  have h0 := sampleNormalizeScalar_nonneg (((x : Int) : ℚ) / ((1023 : Int) : ℚ))
  simp only [sampleOps, sampleConfig, scalar, sampleSignificantlyDifferent, decide_eq_true_eq,
    Bool.false_eq_true, if_false]
  have h1 : (0 : ℚ) ≤ sampleNormalizeScalar (((x : Int) : ℚ) / ((1023 : Int) : ℚ)) - ((-1 : Int) : ℚ) := by
    push_cast; linarith
  rw [abs_of_nonneg h1]
  push_cast
  push_cast at h0
  linarith

/-- In the sample instance no value differs from itself. -/
theorem sample_self_same (a : ℚ) :
    sampleOps.SignificantlyDifferent a a sampleConfig.NoiseReductionLevel = false := by
  simp [sampleOps, sampleConfig, sampleSignificantlyDifferent]

/-! ## Lifecycle (C1, C5) -/

/-- Start on a state whose connected flag is unset returns no error, launches the
goroutine and returns the state as it was, connected still unset. -/
theorem Start_of_not_connected (s : ESPHome F) (h : s.connected = false) :
    Start s = (s, { err := none, launched := true }) := by
  simp [Start, h]

/-- No reachable state has connected set, so Start never refuses. -/
theorem Start_on_reachable (E : Ops F L) (s : ESPHome F) (hs : Reachable E s) :
    Start s = (s, { err := none, launched := true }) :=
  Start_of_not_connected s (reachable_inv E s hs).2.2

/-- C1, the code at the failing input: on the state made by NewESPHome, Start returns
no error and launches the background goroutine but leaves connected unset, and a second
Start on the state so obtained again returns no error and launches a second
goroutine. -/
theorem c1_second_start_also_launches :
    (Start (NewESPHome : ESPHome ℚ)).2 = { err := none, launched := true } ∧
    (Start (NewESPHome : ESPHome ℚ)).1.connected = false ∧
    (Start (Start (NewESPHome : ESPHome ℚ)).1).2 = { err := none, launched := true } := by
  refine ⟨rfl, rfl, rfl⟩

/-- Receiving the stop signal does not end the background goroutine: it goes on with
the rest of what its select statements receive, from the closed state. -/
theorem backgroundTask_after_stop (E : Ops F L) (cfg : Config L) (s : ESPHome F)
    (ms : List Selected) :
    backgroundTask E cfg s (Selected.stop :: ms) = backgroundTask E cfg (close s) ms := by
  simp only [backgroundTask, taskIteration]
  cases backgroundTask E cfg (close s) ms with
  | none => rfl
  | some p => simp

/-- C5, the code at the failing input: with one subscriber, the background goroutine
that receives the stop signal and then the line [512, 7] clears connected, and then
handles that line and sends both of its move events to the subscriber. -/
theorem c5_line_handled_after_stop :
    backgroundTask sampleOps sampleConfig
        (SubscribeToSliderMoveEvents (NewESPHome : ESPHome ℚ) 0).1
        [Selected.stop, Selected.line [512, 7]]
      = some ({ connected := false
                lastKnownNumSliders := 2
                currentSliderPercentValues := [1 / 2, 1 / 100]
                lastGoodResults := []
                sliderMoveConsumers := [0] },
              [(0, { SliderID := 0, PercentValue := 1 / 2 }),
               (0, { SliderID := 1, PercentValue := 1 / 100 })]) := by
  norm_num [backgroundTask, taskIteration, close, SubscribeToSliderMoveEvents, handleLine,
    sliderLoop, updateSliderCount, resetValues, scalar, deliver, sampleOps, sampleConfig,
    NewESPHome, sampleNormalizeScalar, sampleSignificantlyDifferent, List.range,
    List.range.loop, List.replicate, abs_of_nonneg]

/-! ## Fetching (C2) -/

/-- A failing getLine leaves the state as it was and returns the nil slice. -/
theorem getLine_of_error (cfg : Config L) (s : ESPHome F) (http : String → HttpOutcome)
    (e : FetchError) (h : (getLine cfg s http).2.2 = some e) :
    (getLine cfg s http).1 = s ∧ (getLine cfg s http).2.1 = [] := by
  unfold getLine at h ⊢
  dsimp only at h ⊢
  generalize getLineLoop cfg http 0 cfg.ESPHomeSliderNames _ = out at h ⊢
  cases out <;> simp_all

/-- An iteration of the readLine goroutine whose getLine fails sends two values on the
line channel: the last good results, then the nil slice getLine returned. -/
theorem readLineIteration_of_error (cfg : Config L) (s : ESPHome F)
    (http : String → HttpOutcome) (e : FetchError) (h : (getLine cfg s http).2.2 = some e) :
    readLineIteration cfg s http = (s, [s.lastGoodResults, []]) := by
  obtain ⟨h1, h2⟩ := getLine_of_error cfg s http e h
  unfold readLineIteration
  rcases hg : getLine cfg s http with ⟨s1, results, err⟩
  rw [hg] at h h1 h2
  simp only at h h1 h2
  subst h1 h2 h
  simp

/-- C2, the code at the failing input: a first cycle fetches [512, 7]; in the second
cycle the first request fails. The readLine goroutine sends [512, 7] for the first
cycle and, for the failed cycle, [512, 7] followed by the empty (nil) vector. -/
theorem c2_failed_cycle_sends_nil_too :
    readLine sampleConfig (NewESPHome : ESPHome ℚ)
        [fun url => if url = "http://192.168.1.50/sensor/slider0" then HttpOutcome.value 512
                    else HttpOutcome.value 7,
         fun _ => HttpOutcome.failed FetchError.get]
      = ({ connected := false
           lastKnownNumSliders := 0
           currentSliderPercentValues := []
           lastGoodResults := [512, 7]
           sliderMoveConsumers := [] },
         [[[512, 7]], [[512, 7], []]]) := by
  decide

/-! ## Change detection (C3, C4, C6, C7) -/

/-- C3: for every state and every vector v that is empty or has a first element of at
most 1023, and whose length differs from lastKnownNumSliders, handleLine returns, sets
the count to the length of v, and emits exactly one event per index of v, in ascending
index order, each carrying the scalar computed for that index (which is also the value
then tracked for it), provided the noise comparison reports the sentinel -1.0 as
different from every computed scalar. The same holds for every non-empty such v handled
right after the reload reset, whatever the state before the reset was. -/
theorem c3_count_change_emits_every_slider (E : Ops F L) (cfg : Config L) (s : ESPHome F)
    (v : List Int)
    (hfirst : ∀ x, v.head? = some x → x ≤ 1023)
    (hlen : (v.length : Int) ≠ s.lastKnownNumSliders)
    (hsentinel : ∀ x, E.SignificantlyDifferent (E.ofInt (-1)) (scalar E cfg x)
      cfg.NoiseReductionLevel = true) :
    (∃ r, handleLine E cfg s v = some r ∧
      r.moveEvents = v.enum.map (fun p => { SliderID := p.1, PercentValue := scalar E cfg p.2 }) ∧
      r.moveEvents.length = v.length ∧
      r.state.lastKnownNumSliders = v.length ∧
      r.state.currentSliderPercentValues = v.map (scalar E cfg)) ∧
    (∀ s0 : ESPHome F, v ≠ [] →
      ∃ r, handleLine E cfg (onConfigReload s0) v = some r ∧
        r.moveEvents = v.enum.map (fun p => { SliderID := p.1, PercentValue := scalar E cfg p.2 }) ∧
        r.moveEvents.length = v.length ∧
        r.state.lastKnownNumSliders = v.length ∧
        r.state.currentSliderPercentValues = v.map (scalar E cfg)) := by
  have key : ∀ t : ESPHome F, (v.length : Int) ≠ t.lastKnownNumSliders →
      ∃ r, handleLine E cfg t v = some r ∧
        r.moveEvents = v.enum.map (fun p => { SliderID := p.1, PercentValue := scalar E cfg p.2 }) ∧
        r.moveEvents.length = v.length ∧
        r.state.lastKnownNumSliders = v.length ∧
        r.state.currentSliderPercentValues = v.map (scalar E cfg) := by
    intro t ht
    have htr : tracked E t v = List.replicate v.length (E.ofInt (-1)) := by
      simp [tracked, ht]
    have hev : changes E cfg 0 v (tracked E t v)
        = v.enum.map (fun p => { SliderID := p.1, PercentValue := scalar E cfg p.2 }) := by
      rw [htr, changes_replicate E cfg _ hsentinel v 0]; rfl
    refine ⟨_, handleLine_regular E cfg t v hfirst (by simp [htr]), hev, ?_, ?_, ?_⟩
    · simp only [hev, List.length_map, List.enum_length]
    · exact updateSliderCount_count E t v
    · simp only [htr]; exact updated_replicate E cfg _ hsentinel v
  refine ⟨key s hlen, ?_⟩
  intro s0 hne
  apply key
  simp only [onConfigReload]
  intro h
  have : v.length = 0 := by exact_mod_cast h
  exact hne (List.length_eq_zero.mp this)

/-- Witness for C3: the sample instance, the state made by NewESPHome, the line [512, 7]. -/
theorem c3_count_change_emits_every_slider_witness :
    (∀ x, [(512 : Int), 7].head? = some x → x ≤ 1023) ∧
    (([(512 : Int), 7].length : Int) ≠ (NewESPHome : ESPHome ℚ).lastKnownNumSliders) ∧
    (∀ x, sampleOps.SignificantlyDifferent (sampleOps.ofInt (-1)) (scalar sampleOps sampleConfig x)
      sampleConfig.NoiseReductionLevel = true) ∧
    ((∃ r, handleLine sampleOps sampleConfig NewESPHome [512, 7] = some r ∧
      r.moveEvents = [(512 : Int), 7].enum.map
        (fun p => { SliderID := p.1, PercentValue := scalar sampleOps sampleConfig p.2 }) ∧
      r.moveEvents.length = [(512 : Int), 7].length ∧
      r.state.lastKnownNumSliders = [(512 : Int), 7].length ∧
      r.state.currentSliderPercentValues = [(512 : Int), 7].map (scalar sampleOps sampleConfig)) ∧
    (∀ s0 : ESPHome ℚ, [(512 : Int), 7] ≠ [] →
      ∃ r, handleLine sampleOps sampleConfig (onConfigReload s0) [512, 7] = some r ∧
        r.moveEvents = [(512 : Int), 7].enum.map
          (fun p => { SliderID := p.1, PercentValue := scalar sampleOps sampleConfig p.2 }) ∧
        r.moveEvents.length = [(512 : Int), 7].length ∧
        r.state.lastKnownNumSliders = [(512 : Int), 7].length ∧
        r.state.currentSliderPercentValues = [(512 : Int), 7].map (scalar sampleOps sampleConfig))) :=
  ⟨by intro x h; simp at h; omega, by decide, sample_sentinel_differs,
    c3_count_change_emits_every_slider sampleOps sampleConfig NewESPHome [512, 7]
      (by intro x h; simp at h; omega) (by decide) sample_sentinel_differs⟩

/-- C4 as stated fails: on the state made by NewESPHome (count 0, no tracked values) the
line [2000, 7], whose first element exceeds 1023, leaves the count at 2 and the tracked
values at two sentinels. -/
theorem c4_malformed_line_changes_state :
    (handleLine sampleOps sampleConfig NewESPHome [2000, 7]).map
        (fun r => (r.state.lastKnownNumSliders, r.state.currentSliderPercentValues))
      = some (2, [-1, -1]) ∧
    ((NewESPHome : ESPHome ℚ).lastKnownNumSliders,
      (NewESPHome : ESPHome ℚ).currentSliderPercentValues) = (0, []) := by
  decide

/-- C4 as amended: for every state and every vector whose first element is 1024 or
greater, handleLine returns, produces no event and sends nothing. When the length of the
vector equals lastKnownNumSliders the state is left exactly as it was; otherwise
lastKnownNumSliders becomes that length, the tracked values become that many sentinels,
and no other field changes. -/
theorem c4_malformed_line_no_events (E : Ops F L) (cfg : Config L) (s : ESPHome F) (x : Int)
    (rest : List Int) (hx : 1024 ≤ x) :
    ∃ r, handleLine E cfg s (x :: rest) = some r ∧
      r.moveEvents = [] ∧ r.sends = [] ∧
      (((x :: rest).length : Int) = s.lastKnownNumSliders → r.state = s) ∧
      (((x :: rest).length : Int) ≠ s.lastKnownNumSliders →
        r.state = { s with
          lastKnownNumSliders := (x :: rest).length
          currentSliderPercentValues := List.replicate (x :: rest).length (E.ofInt (-1)) }) :=
  ⟨_, handleLine_malformed E cfg s x rest hx, rfl, rfl,
    fun h => updateSliderCount_of_eq E s (x :: rest) h,
    fun h => updateSliderCount_of_ne E s (x :: rest) h⟩

/-- Witness for C4 as amended: the sample instance, the state made by NewESPHome, the
line [2000, 7]. -/
theorem c4_malformed_line_no_events_witness :
    (1024 : Int) ≤ 2000 ∧
    ∃ r, handleLine sampleOps sampleConfig (NewESPHome : ESPHome ℚ) (2000 :: [7]) = some r ∧
      r.moveEvents = [] ∧ r.sends = [] ∧
      ((((2000 : Int) :: [7]).length : Int) = (NewESPHome : ESPHome ℚ).lastKnownNumSliders →
        r.state = NewESPHome) ∧
      ((((2000 : Int) :: [7]).length : Int) ≠ (NewESPHome : ESPHome ℚ).lastKnownNumSliders →
        r.state = { (NewESPHome : ESPHome ℚ) with
          lastKnownNumSliders := ((2000 : Int) :: [7]).length
          currentSliderPercentValues :=
            List.replicate ((2000 : Int) :: [7]).length (sampleOps.ofInt (-1)) }) :=
  ⟨by decide, c4_malformed_line_no_events sampleOps sampleConfig NewESPHome 2000 [7] (by decide)⟩

/-- C6: in every state whose count is 0 or the length of the tracked values (every
reachable state is one, see reachable_inv), and for every vector v that is empty or has
a first element of at most 1023, handleLine returns. Writing old for the tracked values
after the count check (tracked), every index of v has an old value; the events are, in
ascending index order, the pairs of index i and scalar of v[i] for exactly the indices
at which SignificantlyDifferent reports a change between old[i] and that scalar; at
those indices the tracked value becomes the scalar, at every other index of v and at
every position beyond v it stays old[i]. -/
theorem c6_events_are_the_flagged_indices (E : Ops F L) (cfg : Config L) (s : ESPHome F)
    (v : List Int)
    (hcount : s.lastKnownNumSliders = 0 ∨
      s.lastKnownNumSliders = s.currentSliderPercentValues.length)
    (hfirst : ∀ x, v.head? = some x → x ≤ 1023) :
    ∃ r, handleLine E cfg s v = some r ∧
      v.length ≤ (tracked E s v).length ∧
      r.moveEvents = ((v.zip (tracked E s v)).enum).filterMap (fun p =>
        if E.SignificantlyDifferent p.2.2 (scalar E cfg p.2.1) cfg.NoiseReductionLevel then
          some { SliderID := p.1, PercentValue := scalar E cfg p.2.1 } else none) ∧
      r.state.currentSliderPercentValues.length = (tracked E s v).length ∧
      (∀ (i : Nat) (x : Int) (old : F), v[i]? = some x → (tracked E s v)[i]? = some old →
        r.state.currentSliderPercentValues[i]? =
          some (if E.SignificantlyDifferent old (scalar E cfg x) cfg.NoiseReductionLevel then
            scalar E cfg x else old)) ∧
      (∀ i : Nat, v.length ≤ i →
        r.state.currentSliderPercentValues[i]? = (tracked E s v)[i]?) := by
  have hrange := length_le_tracked E s v hcount
  refine ⟨_, handleLine_regular E cfg s v hfirst hrange, hrange, ?_, ?_, ?_, ?_⟩
  · exact changes_eq_filterMap E cfg v (tracked E s v) 0
  · exact updated_length E cfg v _
  · intro i x old hx hold
    exact updated_getElem?_lt E cfg v _ i x old hx hold
  · intro i hi
    exact updated_getElem?_ge E cfg v _ i hi

/-- Witness for C6: the sample instance, the two-slider sample state, the line [600, 7]. -/
theorem c6_events_are_the_flagged_indices_witness :
    (sampleState.lastKnownNumSliders = 0 ∨
      sampleState.lastKnownNumSliders = sampleState.currentSliderPercentValues.length) ∧
    (∀ x, [(600 : Int), 7].head? = some x → x ≤ 1023) ∧
    ∃ r, handleLine sampleOps sampleConfig sampleState [600, 7] = some r ∧
      [(600 : Int), 7].length ≤ (tracked sampleOps sampleState [600, 7]).length ∧
      r.moveEvents = (([(600 : Int), 7].zip (tracked sampleOps sampleState [600, 7])).enum).filterMap
        (fun p =>
          if sampleOps.SignificantlyDifferent p.2.2 (scalar sampleOps sampleConfig p.2.1)
              sampleConfig.NoiseReductionLevel then
            some { SliderID := p.1, PercentValue := scalar sampleOps sampleConfig p.2.1 }
          else none) ∧
      r.state.currentSliderPercentValues.length = (tracked sampleOps sampleState [600, 7]).length ∧
      (∀ (i : Nat) (x : Int) (old : ℚ), [(600 : Int), 7][i]? = some x →
        (tracked sampleOps sampleState [600, 7])[i]? = some old →
        r.state.currentSliderPercentValues[i]? =
          some (if sampleOps.SignificantlyDifferent old (scalar sampleOps sampleConfig x)
              sampleConfig.NoiseReductionLevel then
            scalar sampleOps sampleConfig x else old)) ∧
      (∀ i : Nat, [(600 : Int), 7].length ≤ i →
        r.state.currentSliderPercentValues[i]? = (tracked sampleOps sampleState [600, 7])[i]?) :=
  ⟨Or.inr rfl, by intro x h; simp at h; omega,
    c6_events_are_the_flagged_indices sampleOps sampleConfig sampleState [600, 7] (Or.inr rfl)
      (by intro x h; simp at h; omega)⟩

/-- C7: in every state whose count is 0 or the length of the tracked values (every
reachable state is one), for every vector v and configuration, handling v and then
handling v again returns both times; the second call produces no event, sends nothing
and leaves the whole state, in particular lastKnownNumSliders and the tracked values,
exactly as the first call left it, provided the noise comparison never reports a value
as different from itself. -/
theorem c7_same_line_again_is_silent (E : Ops F L) (cfg : Config L) (s : ESPHome F)
    (v : List Int)
    (hcount : s.lastKnownNumSliders = 0 ∨
      s.lastKnownNumSliders = s.currentSliderPercentValues.length)
    (hself : ∀ a, E.SignificantlyDifferent a a cfg.NoiseReductionLevel = false) :
    ∃ r1 r2, handleLine E cfg s v = some r1 ∧ handleLine E cfg r1.state v = some r2 ∧
      r2.moveEvents = [] ∧ r2.sends = [] ∧ r2.state = r1.state := by
  rcases regular_or_malformed v with hreg | ⟨x, rest, rfl, hx⟩
  · have hrange := length_le_tracked E s v hcount
    have h1 := handleLine_regular E cfg s v hreg hrange
    let s1 : ESPHome F := { updateSliderCount E s v with
      currentSliderPercentValues := updated E cfg v (tracked E s v) }
    have hcnt : (v.length : Int) = s1.lastKnownNumSliders :=
      (updateSliderCount_count E s v).symm
    have htr : tracked E s1 v = updated E cfg v (tracked E s v) := by
      simp only [tracked, hcnt, if_true]
    have hrange2 : v.length ≤ (tracked E s1 v).length := by
      rw [htr, updated_length]; exact hrange
    have h2 := handleLine_regular E cfg s1 v hreg hrange2
    rw [htr, changes_idem E cfg hself, updated_idem E cfg hself,
      updateSliderCount_of_eq E s1 v hcnt] at h2
    refine ⟨_, _, h1, h2, rfl, ?_, rfl⟩
    exact flatMap_map_nil _
  · have h1 := handleLine_malformed E cfg s x rest hx
    have hcnt : (((x :: rest).length : Nat) : Int)
        = (updateSliderCount E s (x :: rest)).lastKnownNumSliders :=
      (updateSliderCount_count E s (x :: rest)).symm
    have h2 := handleLine_malformed E cfg (updateSliderCount E s (x :: rest)) x rest hx
    rw [updateSliderCount_of_eq E _ (x :: rest) hcnt] at h2
    exact ⟨_, _, h1, h2, rfl, rfl, rfl⟩

/-- Witness for C7: the sample instance, the two-slider sample state, the line [600, 7]. -/
theorem c7_same_line_again_is_silent_witness :
    (sampleState.lastKnownNumSliders = 0 ∨
      sampleState.lastKnownNumSliders = sampleState.currentSliderPercentValues.length) ∧
    (∀ a, sampleOps.SignificantlyDifferent a a sampleConfig.NoiseReductionLevel = false) ∧
    ∃ r1 r2, handleLine sampleOps sampleConfig sampleState [600, 7] = some r1 ∧
      handleLine sampleOps sampleConfig r1.state [600, 7] = some r2 ∧
      r2.moveEvents = [] ∧ r2.sends = [] ∧ r2.state = r1.state :=
  ⟨Or.inr rfl, sample_self_same,
    c7_same_line_again_is_silent sampleOps sampleConfig sampleState [600, 7] (Or.inr rfl)
      sample_self_same⟩

/-! ## Broadcasting (C8) -/

/-- C8: in every state whose count is 0 or the length of the tracked values and whose
consumer list has no channel twice (every reachable state is one), handleLine returns
for every vector, and its sends are: for each consumer, in list order, every event of
the batch in batch order, one consumer after the other. So the events sent to any one
registered consumer are exactly the batch in its order, and a channel ch that is not
yet registered is sent nothing. SubscribeToSliderMoveEvents with such a channel returns
it and appends it at the end of the consumer list, all earlier entries staying in
place. -/
theorem c8_every_consumer_gets_the_batch (E : Ops F L) (cfg : Config L) (s : ESPHome F)
    (v : List Int) (ch : Chan)
    (hcount : s.lastKnownNumSliders = 0 ∨
      s.lastKnownNumSliders = s.currentSliderPercentValues.length)
    (hnodup : s.sliderMoveConsumers.Nodup)
    (hfresh : ch ∉ s.sliderMoveConsumers) :
    (∃ r, handleLine E cfg s v = some r ∧
      r.sends = s.sliderMoveConsumers.flatMap (fun consumer =>
        r.moveEvents.map (fun ev => (consumer, ev))) ∧
      (∀ c ∈ s.sliderMoveConsumers,
        (r.sends.filter (fun d => decide (d.1 = c))).map (fun d => d.2) = r.moveEvents) ∧
      (∀ d ∈ r.sends, d.1 ≠ ch)) ∧
    (SubscribeToSliderMoveEvents s ch).1.sliderMoveConsumers = s.sliderMoveConsumers ++ [ch] ∧
    (SubscribeToSliderMoveEvents s ch).2 = ch := by
  obtain ⟨r, hr, _, _, _, _, hsends⟩ := handleLine_total E cfg s v hcount
  refine ⟨⟨r, hr, hsends, ?_, ?_⟩, rfl, rfl⟩
  · intro c hc
    rw [hsends]
    exact sends_to_member r.moveEvents c s.sliderMoveConsumers hnodup hc
  · rw [hsends]
    exact sends_not_to_stranger s.sliderMoveConsumers r.moveEvents ch hfresh

/-- Witness for C8: the sample instance, the sample state with consumers 0 and 1, the
line [600, 7], the new channel 2. -/
theorem c8_every_consumer_gets_the_batch_witness :
    (sampleState.lastKnownNumSliders = 0 ∨
      sampleState.lastKnownNumSliders = sampleState.currentSliderPercentValues.length) ∧
    sampleState.sliderMoveConsumers.Nodup ∧
    (2 : Chan) ∉ sampleState.sliderMoveConsumers ∧
    ((∃ r, handleLine sampleOps sampleConfig sampleState [600, 7] = some r ∧
      r.sends = sampleState.sliderMoveConsumers.flatMap (fun consumer =>
        r.moveEvents.map (fun ev => (consumer, ev))) ∧
      (∀ c ∈ sampleState.sliderMoveConsumers,
        (r.sends.filter (fun d => decide (d.1 = c))).map (fun d => d.2) = r.moveEvents) ∧
      (∀ d ∈ r.sends, d.1 ≠ (2 : Chan))) ∧
    (SubscribeToSliderMoveEvents sampleState 2).1.sliderMoveConsumers
      = sampleState.sliderMoveConsumers ++ [2] ∧
    (SubscribeToSliderMoveEvents sampleState 2).2 = 2) :=
  ⟨Or.inr rfl, by decide, by decide,
    c8_every_consumer_gets_the_batch sampleOps sampleConfig sampleState [600, 7] 2 (Or.inr rfl)
      (by decide) (by decide)⟩

/-! ## Invariants (C9, C10) -/

/-- C9 as stated fails: handling the line [512, 7] from the state made by NewESPHome and
then applying the reload reset gives afterReloadState, a reachable state with two
tracked values and count 0. -/
theorem c9_reload_reset_breaks_length_equality :
    (handleLine sampleOps sampleConfig (NewESPHome : ESPHome ℚ) [512, 7]).map
        (fun r => onConfigReload r.state) = some afterReloadState ∧
    Reachable sampleOps afterReloadState ∧
    (afterReloadState.currentSliderPercentValues.length : Int)
      ≠ afterReloadState.lastKnownNumSliders := by
  have h : handleLine sampleOps sampleConfig (NewESPHome : ESPHome ℚ) [512, 7]
      = some { state := { connected := false
                          lastKnownNumSliders := 2
                          currentSliderPercentValues := [1 / 2, 1 / 100]
                          lastGoodResults := []
                          sliderMoveConsumers := [] }
               moveEvents := [{ SliderID := 0, PercentValue := 1 / 2 },
                              { SliderID := 1, PercentValue := 1 / 100 }]
               sends := [] } := by
    norm_num [handleLine, sliderLoop, updateSliderCount, resetValues, scalar, deliver,
      sampleOps, sampleConfig, NewESPHome, sampleNormalizeScalar,
      sampleSignificantlyDifferent, List.range, List.range.loop, List.replicate,
      abs_of_nonneg]
  refine ⟨?_, ?_, by decide⟩
  · rw [h]; rfl
  · exact Reachable.reload (Reachable.handle sampleConfig [512, 7] _ Reachable.init h)

/-- C9 as amended: in every reachable state lastKnownNumSliders is 0 or equal to the
length of the tracked values; and a handleLine call from such a state leaves the two
equal whenever they were equal before the call or the vector is non-empty. -/
theorem c9_count_is_zero_or_length (E : Ops F L) (s : ESPHome F) (hs : Reachable E s) :
    (s.lastKnownNumSliders = 0 ∨
      s.lastKnownNumSliders = s.currentSliderPercentValues.length) ∧
    (∀ (cfg : Config L) (v : List Int) (r : HandleResult F),
      handleLine E cfg s v = some r →
      (s.lastKnownNumSliders = s.currentSliderPercentValues.length ∨ v ≠ []) →
      r.state.lastKnownNumSliders = r.state.currentSliderPercentValues.length) := by
  have hinv := (reachable_inv E s hs).1
  refine ⟨hinv, ?_⟩
  intro cfg v r hr hcase
  obtain ⟨r2, hr2, hcount, hlen, _, _, _⟩ := handleLine_total E cfg s v hinv
  have : r2 = r := Option.some.inj (hr2.symm.trans hr)
  subst this
  rw [hcount, hlen]
  unfold tracked
  split
  · rename_i heq
    rcases hcase with h | h
    · rw [heq, h]
    · rcases hinv with h0 | h1
      · rw [h0] at heq
        have : v.length = 0 := by exact_mod_cast heq
        exact absurd (List.length_eq_zero.mp this) h
      · rw [heq, h1]
  · simp

/-- Witness for C9 as amended: the state made by NewESPHome. -/
theorem c9_count_is_zero_or_length_witness :
    Reachable sampleOps (NewESPHome : ESPHome ℚ) ∧
    (((NewESPHome : ESPHome ℚ).lastKnownNumSliders = 0 ∨
      (NewESPHome : ESPHome ℚ).lastKnownNumSliders
        = (NewESPHome : ESPHome ℚ).currentSliderPercentValues.length) ∧
    (∀ (cfg : Config ℚ) (v : List Int) (r : HandleResult ℚ),
      handleLine sampleOps cfg NewESPHome v = some r →
      ((NewESPHome : ESPHome ℚ).lastKnownNumSliders
        = (NewESPHome : ESPHome ℚ).currentSliderPercentValues.length ∨ v ≠ []) →
      r.state.lastKnownNumSliders = r.state.currentSliderPercentValues.length)) :=
  ⟨Reachable.init, c9_count_is_zero_or_length sampleOps NewESPHome Reachable.init⟩

/-- C10: in every reachable state, for every configuration and every vector, the slice
that the loop of handleLine indexes (the tracked values after the count check) is at
least as long as the vector, so every index of the vector is in range; handleLine
returns without an index panic, and the slice it leaves has that same length. -/
theorem c10_index_always_in_range (E : Ops F L) (s : ESPHome F) (hs : Reachable E s)
    (cfg : Config L) (v : List Int) :
    v.length ≤ (updateSliderCount E s v).currentSliderPercentValues.length ∧
    ∃ r, handleLine E cfg s v = some r ∧
      r.state.currentSliderPercentValues.length
        = (updateSliderCount E s v).currentSliderPercentValues.length := by
  have hinv := (reachable_inv E s hs).1
  obtain ⟨r, hr, _, hlen, _, _, _⟩ := handleLine_total E cfg s v hinv
  rw [updateSliderCount_values]
  exact ⟨length_le_tracked E s v hinv, r, hr, hlen⟩

/-- Witness for C10: the state made by NewESPHome and the line [512, 7]. -/
theorem c10_index_always_in_range_witness :
    Reachable sampleOps (NewESPHome : ESPHome ℚ) ∧
    ([(512 : Int), 7].length
        ≤ (updateSliderCount sampleOps (NewESPHome : ESPHome ℚ) [512, 7]).currentSliderPercentValues.length ∧
    ∃ r, handleLine sampleOps sampleConfig (NewESPHome : ESPHome ℚ) [512, 7] = some r ∧
      r.state.currentSliderPercentValues.length
        = (updateSliderCount sampleOps (NewESPHome : ESPHome ℚ) [512, 7]).currentSliderPercentValues.length) :=
  ⟨Reachable.init,
    c10_index_always_in_range sampleOps NewESPHome Reachable.init sampleConfig [512, 7]⟩

end Deej
